import Mathlib

/-!
# Verification of the `VoiceToTextScreen` lifecycle controller

Shallow embedding of `src/App.tsx` of the repository
`react-native-offline-speech-to-text`: a single React component that records
audio, transcribes it with a bundled Whisper model, and plays the recording
back, while accumulating an in-UI debug log.

The component is a state machine over the React state variables
`isRecording`, `transcription`, `isProcessing`, `audioFile`, `isPlaying`,
`audioDuration`, `debugLogs`, plus two module-level mutable globals
(`Whisper`, `sound`).  All collaborator calls (audio capture, file store,
whisper engine, sound playback) are external; their outcomes are passed to
the embedded operations as explicit parameters, so every operation is a pure
state transformer (or an `Except`-valued transformer where the source code
lets an exception escape the handler).

JavaScript dynamic values that flow through the transcription-result
normalisation are modelled by the inductive type `JSValue` below, together
with the JS notions the source uses on them: truthiness, `typeof`-is-object,
property access, `await`, array `length` comparison, `Array.prototype.join`
string coercion and `JSON.stringify`.  The numeric tower is modelled by `ℚ`
(JS floats and `NaN` do not occur in any property under study; the one spot
where a non-numeric value could flow into a numeric comparison,
`segments.length > 0`, is modelled by `jsGtZero` with the standard coercions
for the shapes that can reach it).
-/

namespace VoiceToText

/-- A JavaScript runtime value, as needed by the transcription-result
normalisation in `processAudio` and the engine check in `initWhispers`.

`promise` carries its eventual settlement (fulfilment value or rejection
message); `fn` is an opaque function reference (only the JS test of `typeof f` being the
function type is ever asked of it in the source). -/
inductive JSValue : Type where
  | undefined : JSValue
  | null : JSValue
  | bool : Bool → JSValue
  | num : ℚ → JSValue
  | str : String → JSValue
  | arr : List JSValue → JSValue
  | obj : List (String × JSValue) → JSValue
  | promise : Except String JSValue → JSValue
  | fn : Nat → JSValue

/-- JS truthiness (`if (v)`, `v && w`).  `undefined`, `null`, `false`, `0`
and `""` are falsy; objects, arrays, promises and functions are truthy. -/
def truthy : JSValue → Bool
  | .undefined => false
  | .null => false
  | .bool b => b
  | .num q => decide (q ≠ 0)
  | .str s => decide (s ≠ "")
  | .arr _ => true
  | .obj _ => true
  | .promise _ => true
  | .fn _ => true

/-- The JS test of `typeof v` being the object type: true for plain objects, arrays, promises and
`null` (the JS quirk); false for primitives and functions. -/
def typeofIsObject : JSValue → Bool
  | .null => true
  | .arr _ => true
  | .obj _ => true
  | .promise _ => true
  | _ => false

/-- The JS test of `typeof v` being the function type. -/
def typeofIsFunction : JSValue → Bool
  | .fn _ => true
  | _ => false

/-- Property access `v.name`.  Objects look the key up (first binding wins);
arrays and strings expose their `length`; every other access yields
`undefined`.  The source only dereferences values it has guarded to be
truthy, so the `null`/`undefined` cases (which would throw in JS) are
unreachable on the executed paths. -/
def getField : JSValue → String → JSValue
  | .obj fields, name =>
    match fields.find? (fun p => p.1 == name) with
    | some p => p.2
    | none => .undefined
  | .arr xs, "length" => .num (xs.length : ℚ)
  | .str s, "length" => .num (s.length : ℚ)
  | _, _ => .undefined

/-- `await v`: a promise settles to its fulfilment value or throws its
rejection; any non-thenable value awaits to itself. -/
def awaitValue : JSValue → Except String JSValue
  | .promise (.ok v) => .ok v
  | .promise (.error m) => .error m
  | v => .ok v

/-- The comparison `v > 0` as the source applies it to
`transcriptionResult.segments.length`.  Numbers compare directly, booleans
coerce to 0/1, numeric strings are parsed; values that coerce to `NaN`
(objects, `undefined`, functions) compare false. -/
def jsGtZero : JSValue → Bool
  | .num q => decide (0 < q)
  | .bool b => b
  | .str s =>
    match s.toInt? with
    | some n => decide (0 < n)
    | none => false
  | _ => false

/-- `v == .null ∨ v == .undefined`, the values `Array.prototype.join` renders
as the empty string. -/
def isNullish : JSValue → Bool
  | .null => true
  | .undefined => true
  | _ => false

/-- JS `String(v)` coercion, used by `Array.prototype.join`.  Non-integer
rationals are rendered by their `ℚ` representation (the claims under study
never stringify one). -/
def ratToString (q : ℚ) : String :=
  if q.den = 1 then toString q.num else toString q

/-- JS string coercion of a value, as the JS array join with a space separator applies it
to each element (`null`/`undefined` become the empty string). -/
def jsToString : JSValue → String
  | .undefined => "undefined"
  | .null => "null"
  | .bool true => "true"
  | .bool false => "false"
  | .num q => ratToString q
  | .str s => s
  | .arr xs =>
    String.intercalate "," (xs.attach.map (fun p =>
      if isNullish p.1 then "" else jsToString p.1))
  | .obj _ => "[object Object]"
  | .promise _ => "[object Promise]"
  | .fn _ => "function"
decreasing_by
  have h := List.sizeOf_lt_of_mem p.2
  simp only [JSValue.arr.sizeOf_spec]
  omega

/-- Escapes a string for inclusion in a JSON literal. -/
def quoteJson (s : String) : String :=
  "\"" ++ ((s.replace "\\" "\\\\").replace "\"" "\\\"") ++ "\""

/-- `JSON.stringify(v)`: `none` models the JS result `undefined` (for
`undefined` itself and for functions); promises have no enumerable
properties and stringify as `\x7b\x7d`; object fields whose value does not
stringify are omitted, array elements that do not stringify become
`null`. -/
def jsonStringify : JSValue → Option String
  | .undefined => none
  | .null => some "null"
  | .bool true => some "true"
  | .bool false => some "false"
  | .num q => some (ratToString q)
  | .str s => some (quoteJson s)
  | .arr xs =>
    some ("[" ++ String.intercalate ","
      (xs.attach.map (fun p => (jsonStringify p.1).getD "null")) ++ "]")
  | .obj fields =>
    some ("\x7b" ++ String.intercalate ","
      (fields.attach.filterMap (fun p =>
        (jsonStringify p.1.2).map (fun v => quoteJson p.1.1 ++ ":" ++ v)))
      ++ "\x7d")
  | .promise _ => some "\x7b\x7d"
  | .fn _ => none
decreasing_by
  all_goals
    have h := List.sizeOf_lt_of_mem p.2
  · simp only [JSValue.arr.sizeOf_spec]
    omega
  · have h2 : sizeOf p.1.2 < sizeOf p.1 := by
      obtain ⟨⟨a, b⟩, hp⟩ := p
      simp only [Prod.mk.sizeOf_spec]
      omega
    simp only [JSValue.obj.sizeOf_spec]
    omega

/-- String concatenation with `JSON.stringify`, as in
a log-message concatenation of `JSON.stringify(v)` (a JS `undefined` prints as `undefined`). -/
def stringifyForLog (v : JSValue) : String :=
  (jsonStringify v).getD "undefined"

/-- Device- and platform-dependent constants used by the component:
`RNFS.DocumentDirectoryPath`, `RNFS.ExternalDirectoryPath`,
`RNFS.MainBundlePath` and the Android platform test on `Platform.OS`.  The platform flag
only selects which file-store copy primitive fetches the model
(`copyFileAssets` vs `copyFile` from the main bundle); the copy outcome
itself is a collaborator outcome, supplied by `InitWhisperEnv`. -/
structure Config where
  documentDirectoryPath : String
  externalDirectoryPath : String
  mainBundlePath : String
  platformAndroid : Bool

/-- The component state: the seven React `useState` variables of
`VoiceToTextScreen` plus the two module-level globals (`Whisper`, `sound`)
and, for the event machine, the numbers of continuations parked at the two
suspension points user events can race against: `pendingStopSaves` counts
`stopRecording` continuations parked at `await AudioRecord.stop()` (the
stop-and-save window), and `pendingTranscriptions` counts `processAudio`
continuations parked at `await Whisper.transcribe`.  Counters rather than
flags, because a raced sequence of presses can park several continuations
of the same kind.

`whisper` starts as `undefined` (`let Whisper;`); `soundSet` records
whether the `sound` global holds an instance. -/
structure AppState where
  isRecording : Bool
  transcription : JSValue
  isProcessing : Bool
  audioFile : Option String
  isPlaying : Bool
  audioDuration : ℚ
  debugLogs : List String
  whisper : JSValue
  soundSet : Bool
  pendingStopSaves : Nat
  pendingTranscriptions : Nat

/-- The state at first mount. -/
def initialState : AppState :=
  { isRecording := false
    transcription := .str ""
    isProcessing := false
    audioFile := none
    isPlaying := false
    audioDuration := 0
    debugLogs := []
    whisper := .undefined
    soundSet := false
    pendingStopSaves := 0
    pendingTranscriptions := 0 }

/-- `addDebugLog`: `setDebugLogs(prevLogs => [...prevLogs, message])`. -/
def addDebugLog (message : String) (s : AppState) : AppState :=
  { s with debugLogs := s.debugLogs ++ [message] }

/-- Appends a batch of log entries in order. -/
def addDebugLogs (messages : List String) (s : AppState) : AppState :=
  messages.foldl (fun t m => addDebugLog m t) s

/-- Collaborator outcomes consumed by `initWhispers`: the model-file
existence check (`RNFS.exists`, which can itself reject), the model copy
(when the file is absent) and the engine construction
(`await initWhisper(\x7bfilePath: modelPath\x7d)`). -/
structure InitWhisperEnv where
  existsRes : Except String Bool
  copyRes : Except String Unit
  initRes : Except String JSValue

/-- The tail of the `try` block of `initWhispers`: the engine construction
`Whisper = await initWhisper(\x7bfilePath: modelPath\x7d)` and the capability
check.  Faithful points: the global assignment happens *before* the
check that `Whisper` is truthy and `Whisper.transcribe` has function type, and the
`catch` only logs — it never rolls the assignment back, so an engine object
lacking `transcribe` stays referenced. -/
def initWhispersCore (env : InitWhisperEnv) (s : AppState) : AppState :=
  match env.initRes with
  | .error m => addDebugLog ("Failed to initialize Whisper: " ++ m) s
  | .ok w =>
    let s := { s with whisper := w }
    if truthy w && typeofIsFunction (getField w "transcribe") then
      let s := addDebugLog ("Whisper object: " ++ stringifyForLog w) s
      addDebugLog "Whisper initialized successfully" s
    else
      addDebugLog ("Failed to initialize Whisper: "
        ++ "Whisper not properly initialized") s

/-- `initWhispers`: model-file existence check, conditional model copy, then
engine construction; every failure in the `try` block lands in the single
`catch`, which logs `Failed to initialize Whisper: ...`. -/
def initWhispers (cfg : Config) (env : InitWhisperEnv) (s : AppState) : AppState :=
  let s := addDebugLog "Initializing Whisper..." s
  let modelPath := cfg.documentDirectoryPath ++ "/ggml-base.bin"
  match env.existsRes with
  | .error m => addDebugLog ("Failed to initialize Whisper: " ++ m) s
  | .ok modelExists =>
    let s := addDebugLog ("Model exists: " ++ toString modelExists) s
    let s := addDebugLog ("Model path: " ++ modelPath) s
    if modelExists then initWhispersCore env s
    else
      match env.copyRes with
      | .error m => addDebugLog ("Failed to initialize Whisper: " ++ m) s
      | .ok _ => initWhispersCore env (addDebugLog "Model file copied" s)

/-- The `catch` block of `processAudio`: logs the failure and surfaces it
as the transcript. -/
def processAudioCatch (m : String) (s : AppState) : AppState :=
  let s := addDebugLog ("Error processing audio: " ++ m) s
  { s with transcription := .str ("Error processing audio: " ++ m) }

/-- The extraction `segments.map(segment => segment.text)` joined with
single spaces. -/
def joinTexts (segments : List JSValue) : String :=
  String.intercalate " " (segments.map (fun seg =>
    let t := getField seg "text"
    if isNullish t then "" else jsToString t))

/-- The result-shape normalisation of `processAudio`, applied to the value
`result` of `await Whisper.transcribe(audio, options)`.  Returns the log
entries emitted inside the `try` block after the raw-result log, and either
the value passed to `setTranscription` or the thrown error message.

The ordering of the source is kept: the promise branch is probed first
(`result` truthy, of object type, with truthy `result.promise`), then the direct
`result.text` branch, and anything else throws the unexpected-format error.
A truthy non-array `segments` that passes the `.length > 0` probe would make
`.map` throw a `TypeError` in JS; its message is modelled by the
representative engine text below. -/
def tryNormalize (result : JSValue) : List String × Except String JSValue :=
  if truthy result && typeofIsObject result && truthy (getField result "promise") then
    match awaitValue (getField result "promise") with
    | .error m => ([], .error m)
    | .ok tr =>
      let lg := ["Resolved transcription result: " ++ stringifyForLog tr]
      if truthy tr && truthy (getField tr "result") then
        (lg, .ok (getField tr "result"))
      else if truthy tr && truthy (getField tr "segments") &&
          jsGtZero (getField (getField tr "segments") "length") then
        match getField tr "segments" with
        | .arr xs => (lg, .ok (.str (joinTexts xs)))
        | _ => (lg, .error "transcriptionResult.segments.map is not a function")
      else
        (lg, .error "No transcription text in resolved result")
  else if truthy result && truthy (getField result "text") then
    ([], .ok (getField result "text"))
  else
    ([], .error "Unexpected transcription result format")

/-- The part of `processAudio` that runs when the
`await Whisper.transcribe(audio, options)` suspension resumes: `outcome` is
the settlement of that call (the engine may also reject, or — when the
retained engine object has no function-valued `transcribe` — throw a
`TypeError` at the call; both arrive here as `.error`).  Ends with the
`catch`/`finally` of the source. -/
def processAudioResume (outcome : Except String JSValue) (s : AppState) : AppState :=
  let s := { s with pendingTranscriptions := s.pendingTranscriptions - 1 }
  let s2 :=
    match outcome with
    | .error m => processAudioCatch m s
    | .ok result =>
      let s := addDebugLog ("Raw transcription result: " ++ stringifyForLog result) s
      let norm := tryNormalize result
      let s := addDebugLogs norm.1 s
      match norm.2 with
      | .ok v => { s with transcription := v }
      | .error m => processAudioCatch m s
  { s2 with isProcessing := false }

/-- The synchronous part of `processAudio`, up to its first `await`:
`setIsProcessing(true)`, the first log, and the `if (!Whisper)` guard.  With
a falsy engine the whole `try`/`catch`/`finally` completes synchronously and
the second component is `false`; with a truthy engine the call logs
`Starting transcription...` and suspends at the transcribe call (second
component `true`). -/
def processAudioBegin (s : AppState) : AppState × Bool :=
  let s := { s with isProcessing := true }
  let s := addDebugLog "Processing audio..." s
  if truthy s.whisper then
    let s := addDebugLog "Starting transcription..." s
    ({ s with pendingTranscriptions := s.pendingTranscriptions + 1 }, true)
  else
    ({ processAudioCatch "Whisper not initialized" s with isProcessing := false },
      false)

/-- `processAudio` run to completion: the synchronous part followed, when a
transcription call was issued, by the resumption with the call settlement
`transcribeRes`. -/
def processAudio (transcribeRes : Except String JSValue) (s : AppState) : AppState :=
  let begun := processAudioBegin s
  if begun.2 then processAudioResume transcribeRes begun.1 else begun.1

/-- `startRecording`.  `setIsRecording(true)` precedes the collaborator call
`AudioRecord.start()`, which is *not* wrapped in any `try`: a synchronous
throw there escapes the handler (modelled by `.error`). -/
def startRecording (startRes : Except String Unit) (s : AppState) :
    Except String AppState :=
  let s := { s with isRecording := true }
  match startRes with
  | .error m => .error m
  | .ok _ => .ok (addDebugLog "Started recording" s)

/-- The `try` block of `stopRecording` after the file name is formed: move
the raw capture file, record the asset, log path and size, and reach the
`processAudio(filePath)` call.  The second component tells whether that call
was reached (move and stat both succeeded); on a failure the `catch` logs
`Error saving audio file: ...` and the asset set so far is kept. -/
def stopSaveCore (cfg : Config) (now : Nat) (moveRes : Except String Unit)
    (statRes : Except String Nat) (s : AppState) : AppState × Bool :=
  let filePath := cfg.externalDirectoryPath ++ "/recording_" ++ toString now ++ ".wav"
  match moveRes with
  | .error m => (addDebugLog ("Error saving audio file: " ++ m) s, false)
  | .ok _ =>
    let s := { s with audioFile := some filePath }
    let s := addDebugLog ("Audio file saved: " ++ filePath) s
    match statRes with
    | .error m => (addDebugLog ("Error saving audio file: " ++ m) s, false)
    | .ok size =>
      (addDebugLog ("Audio file size: " ++ toString size ++ " bytes") s, true)

/-- `stopRecording` run to completion.  `setIsRecording(false)` happens
first; `await AudioRecord.stop()` sits *before* the `try` block, so its
rejection escapes the handler (modelled by `.error`).  `stopRes` carries the
raw file handle the capture collaborator returns; `now` is `Date.now()`.
The un-awaited trailing `processAudio(filePath)` call is composed to
completion here; the event machine below exposes its suspension point
instead. -/
def stopRecording (cfg : Config) (stopRes : Except String String) (now : Nat)
    (moveRes : Except String Unit) (statRes : Except String Nat)
    (transcribeRes : Except String JSValue) (s : AppState) :
    Except String AppState :=
  let s := { s with isRecording := false }
  match stopRes with
  | .error m => .error m
  | .ok _audio =>
    let s := addDebugLog "Stopped recording" s
    let saved := stopSaveCore cfg now moveRes statRes s
    .ok (if saved.2 then processAudio transcribeRes saved.1 else saved.1)

/-- Collaborator outcomes for one `playAudio` call: the load callback error
(`none` = loaded), the reported duration, and the play-completion flag. -/
structure PlayEnv where
  loadErr : Option String
  duration : ℚ
  playSuccess : Bool

/-- `playAudio` with its load and completion callbacks composed to
completion.  Guarded by `if (audioFile)`.  On load failure only a log entry
is made; on success the duration is recorded, `isPlaying` set, and the
completion callback either logs success and clears `isPlaying`, or logs the
decoding failure and — the asymmetry noted by the spec — leaves `isPlaying`
set. -/
def playAudio (env : PlayEnv) (s : AppState) : AppState :=
  match s.audioFile with
  | none => s
  | some _ =>
    let s := { s with soundSet := true }
    match env.loadErr with
    | some m => addDebugLog ("Failed to load the sound: " ++ m) s
    | none =>
      let s := { s with audioDuration := env.duration, isPlaying := true }
      if env.playSuccess then
        { addDebugLog "Successfully finished playing" s with isPlaying := false }
      else
        addDebugLog "Playback failed due to audio decoding errors" s

/-- `stopAudio` with its stop callback composed: a no-op without a sound
instance, otherwise `setIsPlaying(false)` when the callback fires.  Appends
no log entry. -/
def stopAudio (s : AppState) : AppState :=
  if s.soundSet then { s with isPlaying := false } else s

/-- `deleteAudio`: guarded by `if (audioFile)`; `await RNFS.unlink` is inside
the `try`, so a deletion failure only logs and leaves every state variable
unchanged, while success clears the asset, the transcript and the duration
before logging. -/
def deleteAudio (unlinkRes : Except String Unit) (s : AppState) : AppState :=
  match s.audioFile with
  | none => s
  | some _ =>
    match unlinkRes with
    | .ok _ =>
      let s := { s with audioFile := none, transcription := .str "",
                        audioDuration := 0 }
      addDebugLog "Audio file deleted successfully" s
    | .error m => addDebugLog ("Error deleting audio file: " ++ m) s

/-!
## Event machine

The component is single-threaded and event-driven: UI-event handlers and
asynchronous resumptions interleave on one logical thread.  The machine
below makes the interleavings user events can race against observable.  Two
suspension points get their own resumption events, because a state change
on either side of them is visible to the claims under study:

* a stop press only runs the synchronous prefix of `stopRecording`
  (`setIsRecording(false)`) and parks a continuation at
  `await AudioRecord.stop()`; the parked stop-and-save continuation is a
  separate event (`stopSaveDone`) that performs the move/stat/logs and the
  synchronous prefix of `processAudio` — so a user pressing the toggle
  *during* the stop-and-save window (when `isRecording` is already false
  but `isProcessing` is not yet true) is a representable interleaving;
* the transcribe call of `processAudio` parks at
  `await Whisper.transcribe`, resumed by `transcribeDone`.

The awaits *inside* one parked stop-and-save continuation (capture stop,
file move, stat) stay merged into its resumption event: between them the
continuation only appends logs and sets the asset from local variables —
it neither reads nor writes `isRecording`/`isProcessing` before its final
`processAudio` prefix, and a user event placed between those inner awaits
sees `pendingStopSaves ≠ 0` exactly as one placed before the resumption
does, so no flag-relevant interleaving is lost.  Likewise the model setup
of `initWhispers`, the playback callbacks (own events), and the nested
`await result.promise` (settlement embedded in the value) keep their
handler granularity.  Collaborator outcomes the source would *not* catch
(capture `start`/`stop` throwing) are studied on the `Except`-valued
operations above; machine events carry the outcomes the handlers survive.

Each event is a user button press or a collaborator resumption, carrying
the collaborator outcomes consumed before the next suspension point. -/

/-- One atomic turn of the event loop. -/
inductive Ev : Type where
  /-- The record toggle button: when recording, the synchronous prefix of
  `stopRecording` (clear the flag, park the stop-and-save continuation);
  otherwise `startRecording` with capture `start` resolving normally. -/
  | recordToggle : Ev
  /-- A parked stop-and-save continuation resumes: capture stop returned
  `rawHandle`, the file is moved and stated, and `processAudio` runs up to
  its transcribe suspension. -/
  | stopSaveDone (rawHandle : String) (now : Nat) (moveRes : Except String Unit)
      (statRes : Except String Nat) : Ev
  /-- The `await Whisper.transcribe` suspension resumes with `outcome`. -/
  | transcribeDone (outcome : Except String JSValue) : Ev
  /-- The play button: `playAudio` up to creating the sound instance. -/
  | playPress : Ev
  /-- The sound load callback fires. -/
  | soundLoadDone (loadErr : Option String) (duration : ℚ) : Ev
  /-- The play completion callback fires. -/
  | playbackDone (success : Bool) : Ev
  /-- The stop-playing button (with its stop callback). -/
  | stopAudioPress : Ev
  /-- The delete button: `deleteAudio` with the unlink outcome. -/
  | deletePress (unlinkRes : Except String Unit) : Ev
  /-- The mount-time `initWhispers` sequence completes. -/
  | whisperInit (env : InitWhisperEnv) : Ev

/-- The step function of the event machine.  Resumption events fire only
when a matching continuation is parked. -/
def step (cfg : Config) (s : AppState) : Ev → AppState
  | .recordToggle =>
    if s.isRecording then
      { s with isRecording := false, pendingStopSaves := s.pendingStopSaves + 1 }
    else
      addDebugLog "Started recording" { s with isRecording := true }
  | .stopSaveDone _rawHandle now moveRes statRes =>
    if s.pendingStopSaves ≠ 0 then
      let s := { s with pendingStopSaves := s.pendingStopSaves - 1 }
      let s := addDebugLog "Stopped recording" s
      let saved := stopSaveCore cfg now moveRes statRes s
      if saved.2 then (processAudioBegin saved.1).1 else saved.1
    else s
  | .transcribeDone outcome =>
    if s.pendingTranscriptions ≠ 0 then processAudioResume outcome s else s
  | .playPress =>
    match s.audioFile with
    | none => s
    | some _ => { s with soundSet := true }
  | .soundLoadDone loadErr duration =>
    if s.soundSet then
      match loadErr with
      | some m => addDebugLog ("Failed to load the sound: " ++ m) s
      | none => { s with audioDuration := duration, isPlaying := true }
    else s
  | .playbackDone success =>
    if s.soundSet then
      if success then
        { addDebugLog "Successfully finished playing" s with isPlaying := false }
      else
        addDebugLog "Playback failed due to audio decoding errors" s
    else s
  | .stopAudioPress => if s.soundSet then { s with isPlaying := false } else s
  | .deletePress unlinkRes => deleteAudio unlinkRes s
  | .whisperInit env => initWhispers cfg env s

/-- Runs a sequence of event-loop turns. -/
def runEvents (cfg : Config) (s : AppState) (evs : List Ev) : AppState :=
  evs.foldl (step cfg) s

/-- `true` when the event would start a new recording while a stop-and-save
or a transcription is still in flight — the unserialised race the spec
documents.  The toggle starts a recording exactly when `isRecording` is
false; busy means the processing flag is up (a transcription in flight) or
a stop-and-save continuation is parked (it will raise the processing flag
when it resumes).  A parked transcription whose flag has already been
cleared needs no guard: its resumption only ever clears the flag. -/
def startsWhileBusy (s : AppState) : Ev → Bool
  | .recordToggle =>
    !s.isRecording && (s.isProcessing || s.pendingStopSaves != 0)
  | _ => false

/-- A trace is race-free when no turn starts a recording while a
stop-and-save or a transcription is in flight. -/
def raceFreeTrace (cfg : Config) (s : AppState) : List Ev → Bool
  | [] => true
  | e :: es => !startsWhileBusy s e && raceFreeTrace cfg (step cfg s e) es

/-! ## Projection lemmas -/

@[simp] theorem addDebugLog_isRecording (m : String) (s : AppState) :
    (addDebugLog m s).isRecording = s.isRecording := rfl

@[simp] theorem addDebugLog_isProcessing (m : String) (s : AppState) :
    (addDebugLog m s).isProcessing = s.isProcessing := rfl

@[simp] theorem addDebugLog_transcription (m : String) (s : AppState) :
    (addDebugLog m s).transcription = s.transcription := rfl

@[simp] theorem addDebugLog_audioFile (m : String) (s : AppState) :
    (addDebugLog m s).audioFile = s.audioFile := rfl

@[simp] theorem addDebugLog_isPlaying (m : String) (s : AppState) :
    (addDebugLog m s).isPlaying = s.isPlaying := rfl

@[simp] theorem addDebugLog_audioDuration (m : String) (s : AppState) :
    (addDebugLog m s).audioDuration = s.audioDuration := rfl

@[simp] theorem addDebugLog_whisper (m : String) (s : AppState) :
    (addDebugLog m s).whisper = s.whisper := rfl

@[simp] theorem addDebugLog_soundSet (m : String) (s : AppState) :
    (addDebugLog m s).soundSet = s.soundSet := rfl

@[simp] theorem addDebugLog_pendingStopSaves (m : String) (s : AppState) :
    (addDebugLog m s).pendingStopSaves = s.pendingStopSaves := rfl

@[simp] theorem addDebugLog_pendingTranscriptions (m : String) (s : AppState) :
    (addDebugLog m s).pendingTranscriptions = s.pendingTranscriptions := rfl

@[simp] theorem addDebugLog_debugLogs (m : String) (s : AppState) :
    (addDebugLog m s).debugLogs = s.debugLogs ++ [m] := rfl

@[simp] theorem addDebugLogs_nil (s : AppState) : addDebugLogs [] s = s := rfl

theorem addDebugLogs_cons (m : String) (ms : List String) (s : AppState) :
    addDebugLogs (m :: ms) s = addDebugLogs ms (addDebugLog m s) := rfl

@[simp] theorem addDebugLogs_isRecording (ms : List String) (s : AppState) :
    (addDebugLogs ms s).isRecording = s.isRecording := by
  induction ms generalizing s with
  | nil => rfl
  | cons m ms ih => rw [addDebugLogs_cons, ih]; rfl

@[simp] theorem addDebugLogs_isProcessing (ms : List String) (s : AppState) :
    (addDebugLogs ms s).isProcessing = s.isProcessing := by
  induction ms generalizing s with
  | nil => rfl
  | cons m ms ih => rw [addDebugLogs_cons, ih]; rfl

@[simp] theorem addDebugLogs_debugLogs (ms : List String) (s : AppState) :
    (addDebugLogs ms s).debugLogs = s.debugLogs ++ ms := by
  induction ms generalizing s with
  | nil => simp
  | cons m ms ih => rw [addDebugLogs_cons, ih]; simp

@[simp] theorem processAudioCatch_isRecording (m : String) (s : AppState) :
    (processAudioCatch m s).isRecording = s.isRecording := rfl

@[simp] theorem processAudioCatch_isProcessing (m : String) (s : AppState) :
    (processAudioCatch m s).isProcessing = s.isProcessing := rfl

@[simp] theorem processAudioCatch_transcription (m : String) (s : AppState) :
    (processAudioCatch m s).transcription
      = .str ("Error processing audio: " ++ m) := rfl

@[simp] theorem processAudioCatch_debugLogs (m : String) (s : AppState) :
    (processAudioCatch m s).debugLogs
      = s.debugLogs ++ ["Error processing audio: " ++ m] := rfl

@[simp] theorem processAudioResume_isProcessing (o : Except String JSValue)
    (s : AppState) : (processAudioResume o s).isProcessing = false := rfl

@[simp] theorem processAudioResume_isRecording (o : Except String JSValue)
    (s : AppState) : (processAudioResume o s).isRecording = s.isRecording := by
  unfold processAudioResume
  cases o with
  | error m => rfl
  | ok result =>
    dsimp only
    split <;> simp

theorem processAudioResume_logs (o : Except String JSValue) (s : AppState) :
    ∃ t, (processAudioResume o s).debugLogs = s.debugLogs ++ t := by
  unfold processAudioResume
  cases o with
  | error m => exact ⟨_, rfl⟩
  | ok result =>
    dsimp only
    split
    next v heq =>
      exact ⟨("Raw transcription result: " ++ stringifyForLog result)
        :: (tryNormalize result).1, by simp⟩
    next m heq =>
      exact ⟨("Raw transcription result: " ++ stringifyForLog result)
        :: ((tryNormalize result).1 ++ ["Error processing audio: " ++ m]),
        by simp⟩

@[simp] theorem processAudioBegin_isRecording (s : AppState) :
    (processAudioBegin s).1.isRecording = s.isRecording := by
  unfold processAudioBegin
  dsimp only
  split <;> simp

@[simp] theorem processAudioBegin_whisper (s : AppState) :
    (processAudioBegin s).1.whisper = s.whisper := by
  unfold processAudioBegin
  dsimp only
  split <;> simp [processAudioCatch, addDebugLog]

theorem processAudioBegin_logs (s : AppState) :
    ∃ t, (processAudioBegin s).1.debugLogs = s.debugLogs ++ t := by
  unfold processAudioBegin
  dsimp only
  split
  · exact ⟨["Processing audio...", "Starting transcription..."], by simp⟩
  · exact ⟨["Processing audio...",
      "Error processing audio: " ++ "Whisper not initialized"], by simp⟩

@[simp] theorem stopSaveCore_isRecording (cfg : Config) (now : Nat)
    (moveRes : Except String Unit) (statRes : Except String Nat) (s : AppState) :
    (stopSaveCore cfg now moveRes statRes s).1.isRecording = s.isRecording := by
  unfold stopSaveCore
  cases moveRes with
  | error m => rfl
  | ok _ => cases statRes <;> rfl

@[simp] theorem stopSaveCore_isProcessing (cfg : Config) (now : Nat)
    (moveRes : Except String Unit) (statRes : Except String Nat) (s : AppState) :
    (stopSaveCore cfg now moveRes statRes s).1.isProcessing = s.isProcessing := by
  unfold stopSaveCore
  cases moveRes with
  | error m => rfl
  | ok _ => cases statRes <;> rfl

@[simp] theorem stopSaveCore_whisper (cfg : Config) (now : Nat)
    (moveRes : Except String Unit) (statRes : Except String Nat) (s : AppState) :
    (stopSaveCore cfg now moveRes statRes s).1.whisper = s.whisper := by
  unfold stopSaveCore
  cases moveRes with
  | error m => rfl
  | ok _ => cases statRes <;> rfl

theorem stopSaveCore_logs (cfg : Config) (now : Nat)
    (moveRes : Except String Unit) (statRes : Except String Nat) (s : AppState) :
    ∃ t, (stopSaveCore cfg now moveRes statRes s).1.debugLogs
      = s.debugLogs ++ t := by
  unfold stopSaveCore
  cases moveRes with
  | error m => exact ⟨_, rfl⟩
  | ok _ =>
    cases statRes with
    | error m =>
      exact ⟨["Audio file saved: "
          ++ (cfg.externalDirectoryPath ++ "/recording_" ++ toString now ++ ".wav"),
        "Error saving audio file: " ++ m], by simp⟩
    | ok size =>
      exact ⟨["Audio file saved: "
          ++ (cfg.externalDirectoryPath ++ "/recording_" ++ toString now ++ ".wav"),
        "Audio file size: " ++ toString size ++ " bytes"], by simp⟩

theorem initWhispersCore_isRecording (env : InitWhisperEnv) (s : AppState) :
    (initWhispersCore env s).isRecording = s.isRecording := by
  unfold initWhispersCore
  split
  · rfl
  · dsimp only
    split <;> simp

theorem initWhispersCore_isProcessing (env : InitWhisperEnv) (s : AppState) :
    (initWhispersCore env s).isProcessing = s.isProcessing := by
  unfold initWhispersCore
  split
  · rfl
  · dsimp only
    split <;> simp

theorem initWhispersCore_logs (env : InitWhisperEnv) (s : AppState) :
    ∃ t, (initWhispersCore env s).debugLogs = s.debugLogs ++ t := by
  unfold initWhispersCore
  split
  next m heq => exact ⟨_, rfl⟩
  next w heq =>
    dsimp only
    split
    · exact ⟨["Whisper object: " ++ stringifyForLog w,
        "Whisper initialized successfully"], by simp⟩
    · exact ⟨["Failed to initialize Whisper: "
        ++ "Whisper not properly initialized"], by simp⟩

theorem initWhispers_isRecording (cfg : Config) (env : InitWhisperEnv)
    (s : AppState) : (initWhispers cfg env s).isRecording = s.isRecording := by
  unfold initWhispers
  dsimp only
  split
  · rfl
  · split
    · rw [initWhispersCore_isRecording]; rfl
    · split
      · rfl
      · rw [initWhispersCore_isRecording]; rfl

theorem initWhispers_isProcessing (cfg : Config) (env : InitWhisperEnv)
    (s : AppState) : (initWhispers cfg env s).isProcessing = s.isProcessing := by
  unfold initWhispers
  dsimp only
  split
  · rfl
  · split
    · rw [initWhispersCore_isProcessing]; rfl
    · split
      · rfl
      · rw [initWhispersCore_isProcessing]; rfl

theorem initWhispers_logs (cfg : Config) (env : InitWhisperEnv) (s : AppState) :
    ∃ t, (initWhispers cfg env s).debugLogs = s.debugLogs ++ t := by
  unfold initWhispers
  dsimp only
  split
  next m heq =>
    exact ⟨["Initializing Whisper...", "Failed to initialize Whisper: " ++ m],
      by simp⟩
  next modelExists heq =>
    split
    · obtain ⟨t, ht⟩ := initWhispersCore_logs env
        (addDebugLog ("Model path: " ++ (cfg.documentDirectoryPath ++ "/ggml-base.bin"))
          (addDebugLog ("Model exists: " ++ toString modelExists)
            (addDebugLog "Initializing Whisper..." s)))
      refine ⟨["Initializing Whisper...",
        "Model exists: " ++ toString modelExists,
        "Model path: " ++ (cfg.documentDirectoryPath ++ "/ggml-base.bin")] ++ t, ?_⟩
      rw [ht]; simp
    · split
      next m heq2 =>
        exact ⟨["Initializing Whisper...",
          "Model exists: " ++ toString modelExists,
          "Model path: " ++ (cfg.documentDirectoryPath ++ "/ggml-base.bin"),
          "Failed to initialize Whisper: " ++ m], by simp⟩
      next heq2 =>
        obtain ⟨t, ht⟩ := initWhispersCore_logs env
          (addDebugLog "Model file copied"
            (addDebugLog ("Model path: " ++ (cfg.documentDirectoryPath ++ "/ggml-base.bin"))
              (addDebugLog ("Model exists: " ++ toString modelExists)
                (addDebugLog "Initializing Whisper..." s))))
        refine ⟨["Initializing Whisper...",
          "Model exists: " ++ toString modelExists,
          "Model path: " ++ (cfg.documentDirectoryPath ++ "/ggml-base.bin"),
          "Model file copied"] ++ t, ?_⟩
        rw [ht]; simp

theorem deleteAudio_isRecording (r : Except String Unit) (s : AppState) :
    (deleteAudio r s).isRecording = s.isRecording := by
  unfold deleteAudio
  split
  · rfl
  · split <;> rfl

theorem deleteAudio_isProcessing (r : Except String Unit) (s : AppState) :
    (deleteAudio r s).isProcessing = s.isProcessing := by
  unfold deleteAudio
  split
  · rfl
  · split <;> rfl

theorem deleteAudio_logs (r : Except String Unit) (s : AppState) :
    ∃ t, (deleteAudio r s).debugLogs = s.debugLogs ++ t := by
  unfold deleteAudio
  split
  · exact ⟨[], by simp⟩
  · split
    · exact ⟨["Audio file deleted successfully"], by simp⟩
    next m => exact ⟨["Error deleting audio file: " ++ m], by simp⟩

/-! ## Machine-level lemmas -/

/-- One event-loop turn only ever appends to the debug log. -/
theorem step_logsExt (cfg : Config) (s : AppState) (e : Ev) :
    ∃ t, (step cfg s e).debugLogs = s.debugLogs ++ t := by
  cases e with
  | recordToggle =>
    simp only [step]
    split
    · exact ⟨[], by simp⟩
    · exact ⟨["Started recording"], by simp⟩
  | stopSaveDone raw now mv st =>
    simp only [step]
    split
    · obtain ⟨t1, h1⟩ := stopSaveCore_logs cfg now mv st
        (addDebugLog "Stopped recording"
          { s with pendingStopSaves := s.pendingStopSaves - 1 })
      split
      · obtain ⟨t2, h2⟩ := processAudioBegin_logs
          (stopSaveCore cfg now mv st
            (addDebugLog "Stopped recording"
              { s with pendingStopSaves := s.pendingStopSaves - 1 })).1
        exact ⟨("Stopped recording" :: t1) ++ t2, by rw [h2, h1]; simp⟩
      · exact ⟨"Stopped recording" :: t1, by rw [h1]; simp⟩
    · exact ⟨[], by simp⟩
  | transcribeDone o =>
    simp only [step]
    split
    · exact processAudioResume_logs o s
    · exact ⟨[], by simp⟩
  | playPress =>
    simp only [step]
    split
    · exact ⟨[], by simp⟩
    · exact ⟨[], by simp⟩
  | soundLoadDone err dur =>
    simp only [step]
    split
    · split
      next m => exact ⟨["Failed to load the sound: " ++ m], by simp⟩
      · exact ⟨[], by simp⟩
    · exact ⟨[], by simp⟩
  | playbackDone success =>
    simp only [step]
    split
    · split
      · exact ⟨["Successfully finished playing"], by simp⟩
      · exact ⟨["Playback failed due to audio decoding errors"], by simp⟩
    · exact ⟨[], by simp⟩
  | stopAudioPress =>
    simp only [step]
    split
    · exact ⟨[], by simp⟩
    · exact ⟨[], by simp⟩
  | deletePress r =>
    simp only [step]
    exact deleteAudio_logs r s
  | whisperInit env =>
    simp only [step]
    exact initWhispers_logs cfg env s

@[simp] theorem addDebugLogs_pendingStopSaves (ms : List String) (s : AppState) :
    (addDebugLogs ms s).pendingStopSaves = s.pendingStopSaves := by
  induction ms generalizing s with
  | nil => rfl
  | cons m ms ih => rw [addDebugLogs_cons, ih]; rfl

@[simp] theorem processAudioCatch_pendingStopSaves (m : String) (s : AppState) :
    (processAudioCatch m s).pendingStopSaves = s.pendingStopSaves := rfl

@[simp] theorem processAudioResume_pendingStopSaves (o : Except String JSValue)
    (s : AppState) :
    (processAudioResume o s).pendingStopSaves = s.pendingStopSaves := by
  unfold processAudioResume
  cases o with
  | error m => rfl
  | ok result =>
    dsimp only
    split <;> simp

@[simp] theorem stopSaveCore_pendingStopSaves (cfg : Config) (now : Nat)
    (moveRes : Except String Unit) (statRes : Except String Nat) (s : AppState) :
    (stopSaveCore cfg now moveRes statRes s).1.pendingStopSaves
      = s.pendingStopSaves := by
  unfold stopSaveCore
  cases moveRes with
  | error m => rfl
  | ok _ => cases statRes <;> rfl

@[simp] theorem processAudioBegin_pendingStopSaves (s : AppState) :
    (processAudioBegin s).1.pendingStopSaves = s.pendingStopSaves := by
  unfold processAudioBegin
  dsimp only
  split <;> simp [processAudioCatch, addDebugLog]

theorem deleteAudio_pendingStopSaves (r : Except String Unit) (s : AppState) :
    (deleteAudio r s).pendingStopSaves = s.pendingStopSaves := by
  unfold deleteAudio
  split
  · rfl
  · split <;> rfl

theorem initWhispersCore_pendingStopSaves (env : InitWhisperEnv) (s : AppState) :
    (initWhispersCore env s).pendingStopSaves = s.pendingStopSaves := by
  unfold initWhispersCore
  split
  · rfl
  · dsimp only
    split <;> simp

theorem initWhispers_pendingStopSaves (cfg : Config) (env : InitWhisperEnv)
    (s : AppState) :
    (initWhispers cfg env s).pendingStopSaves = s.pendingStopSaves := by
  unfold initWhispers
  dsimp only
  split
  · rfl
  · split
    · rw [initWhispersCore_pendingStopSaves]; rfl
    · split
      · rfl
      · rw [initWhispersCore_pendingStopSaves]; rfl

/-- The strengthened flag invariant: the recording and processing flags are
not both up, and while a stop-and-save continuation is parked the recording
flag is down (it was cleared by the stop press that parked it). -/
def flagsInv (s : AppState) : Prop :=
  (s.isRecording && s.isProcessing) = false
    ∧ (s.pendingStopSaves ≠ 0 → s.isRecording = false)

/-- One race-free event-loop turn preserves the flag invariant. -/
theorem step_flags_inv (cfg : Config) (s : AppState) (e : Ev)
    (h : flagsInv s) (he : startsWhileBusy s e = false) :
    flagsInv (step cfg s e) := by
  cases e with
  | recordToggle =>
    simp only [step]
    split
    next hrec =>
      exact ⟨by simp, fun _ => by simp⟩
    next hrec =>
      simp only [startsWhileBusy, Bool.not_eq_true] at hrec he
      rw [hrec] at he
      simp only [Bool.not_false, Bool.true_and, Bool.or_eq_false_iff] at he
      constructor
      · show (true && s.isProcessing) = false
        rw [Bool.true_and]
        exact he.1
      · intro hp
        exact absurd (by simpa using he.2) hp
  | stopSaveDone raw now mv st =>
    simp only [step]
    split
    next hpend =>
      have hrec : s.isRecording = false := h.2 hpend
      constructor
      · split
        · rw [Bool.and_eq_false_iff]
          left
          rw [processAudioBegin_isRecording, stopSaveCore_isRecording]
          exact hrec
        · rw [Bool.and_eq_false_iff]
          left
          rw [stopSaveCore_isRecording]
          exact hrec
      · intro _
        split
        · rw [processAudioBegin_isRecording, stopSaveCore_isRecording]
          exact hrec
        · rw [stopSaveCore_isRecording]
          exact hrec
    next hpend => exact h
  | transcribeDone o =>
    simp only [step]
    split
    · constructor
      · simp
      · intro hp
        rw [processAudioResume_isRecording]
        exact h.2 (by rwa [processAudioResume_pendingStopSaves] at hp)
    · exact h
  | playPress =>
    simp only [step]
    split
    · exact h
    · exact h
  | soundLoadDone err dur =>
    simp only [step]
    split
    · split
      · exact h
      · exact h
    · exact h
  | playbackDone success =>
    simp only [step]
    split
    · split
      · exact h
      · exact h
    · exact h
  | stopAudioPress =>
    simp only [step]
    split
    · exact h
    · exact h
  | deletePress r =>
    simp only [step]
    constructor
    · rw [deleteAudio_isRecording, deleteAudio_isProcessing]
      exact h.1
    · intro hp
      rw [deleteAudio_isRecording]
      exact h.2 (by rwa [deleteAudio_pendingStopSaves] at hp)
  | whisperInit env =>
    simp only [step]
    constructor
    · rw [initWhispers_isRecording, initWhispers_isProcessing]
      exact h.1
    · intro hp
      rw [initWhispers_isRecording]
      exact h.2 (by rwa [initWhispers_pendingStopSaves] at hp)

/-! ## `processAudio` computation helpers -/

/-- With a truthy engine, the synchronous part of `processAudio` logs the
two progress entries and suspends at the transcribe call. -/
theorem processAudioBegin_of_ready (s : AppState) (hw : truthy s.whisper = true) :
    processAudioBegin s
      = ({ addDebugLog "Starting transcription..."
            (addDebugLog "Processing audio..." { s with isProcessing := true })
          with pendingTranscriptions := s.pendingTranscriptions + 1 }, true) := by
  unfold processAudioBegin
  dsimp only
  have hc : truthy
      (addDebugLog "Processing audio..." { s with isProcessing := true }).whisper
      = true := hw
  rw [hc]
  simp

/-- With a falsy engine, `processAudio` completes synchronously on the
`Whisper not initialized` error path, independent of the transcribe
outcome. -/
theorem processAudio_not_ready_aux (t : Except String JSValue) (s : AppState)
    (hw : truthy s.whisper = false) :
    processAudio t s
      = { processAudioCatch "Whisper not initialized"
            (addDebugLog "Processing audio..." { s with isProcessing := true })
          with isProcessing := false } := by
  unfold processAudio processAudioBegin
  dsimp only
  have hc : truthy
      (addDebugLog "Processing audio..." { s with isProcessing := true }).whisper
      = false := hw
  rw [hc]
  simp

/-- With a truthy engine, the transcript `processAudio` sets is determined
by the normalisation verdict on the call result: a normalised value is
stored as-is. -/
theorem processAudio_transcription_of_norm (s : AppState) (result v : JSValue)
    (hw : truthy s.whisper = true) (hnorm : (tryNormalize result).2 = .ok v) :
    (processAudio (.ok result) s).transcription = v := by
  unfold processAudio
  rw [processAudioBegin_of_ready s hw]
  unfold processAudioResume
  dsimp only
  rw [hnorm]
  rfl

/-- With a truthy engine, a normalisation failure (or any thrown message
`m`) surfaces as the error-prefixed transcript. -/
theorem processAudio_transcription_of_norm_err (s : AppState) (result : JSValue)
    (m : String) (hw : truthy s.whisper = true)
    (hnorm : (tryNormalize result).2 = .error m) :
    (processAudio (.ok result) s).transcription
      = .str ("Error processing audio: " ++ m) := by
  unfold processAudio
  rw [processAudioBegin_of_ready s hw]
  unfold processAudioResume
  dsimp only
  rw [hnorm]
  rfl

/-- With a truthy engine, a transcribe call that throws `m` surfaces as the
error-prefixed transcript, with a matching log entry. -/
theorem processAudio_of_call_error (s : AppState) (m : String)
    (hw : truthy s.whisper = true) :
    (processAudio (.error m) s).transcription
        = .str ("Error processing audio: " ++ m)
      ∧ ("Error processing audio: " ++ m) ∈ (processAudio (.error m) s).debugLogs := by
  unfold processAudio
  rw [processAudioBegin_of_ready s hw]
  unfold processAudioResume
  dsimp only
  constructor
  · rfl
  · simp

/-- `processAudio` only appends to the debug log. -/
theorem processAudio_logsExt (t : Except String JSValue) (s : AppState) :
    ∃ u, (processAudio t s).debugLogs = s.debugLogs ++ u := by
  unfold processAudio
  obtain ⟨u1, h1⟩ := processAudioBegin_logs s
  dsimp only
  split
  · obtain ⟨u2, h2⟩ := processAudioResume_logs t (processAudioBegin s).1
    exact ⟨u1 ++ u2, by rw [h2, h1]; simp⟩
  · exact ⟨u1, h1⟩

/-! ## Concrete fixtures for witnesses and counterexamples -/

/-- A fixed device configuration for concrete executions. -/
def cfg0 : Config :=
  { documentDirectoryPath := "/data/Documents"
    externalDirectoryPath := "/storage/app"
    mainBundlePath := "/bundle"
    platformAndroid := true }

/-- An engine object exposing a function-valued `transcribe`. -/
def readyEngine : JSValue := .obj [("transcribe", .fn 0)]

/-- The initial state after a successful engine initialization. -/
def readyState : AppState := { initialState with whisper := readyEngine }

/-- An engine object whose `transcribe` property is not a function. -/
def badEngine : JSValue := .obj [("transcribe", .str "not a function")]

/-- Collaborator outcomes making `initWhispers` succeed with
`readyEngine`. -/
def goodInitEnv : InitWhisperEnv :=
  { existsRes := .ok true, copyRes := .ok (), initRes := .ok readyEngine }

/-- Collaborator outcomes making `initWhisper` resolve to `badEngine`. -/
def badInitEnv : InitWhisperEnv :=
  { existsRes := .ok true, copyRes := .ok (), initRes := .ok badEngine }

/-! ## Normalisation branch lemmas -/

@[simp] theorem truthy_arr (xs : List JSValue) : truthy (.arr xs) = true := rfl

@[simp] theorem jsToString_str (s : String) : jsToString (.str s) = s := by
  simp [jsToString]

theorem tryNormalize_promise_result (result tr : JSValue)
    (h1 : truthy result = true) (h2 : typeofIsObject result = true)
    (h3 : truthy (getField result "promise") = true)
    (h4 : awaitValue (getField result "promise") = .ok tr)
    (h5 : truthy tr = true) (h6 : truthy (getField tr "result") = true) :
    (tryNormalize result).2 = .ok (getField tr "result") := by
  unfold tryNormalize
  simp [h1, h2, h3, h4, h5, h6]

theorem tryNormalize_promise_segments (result tr : JSValue) (xs : List JSValue)
    (h1 : truthy result = true) (h2 : typeofIsObject result = true)
    (h3 : truthy (getField result "promise") = true)
    (h4 : awaitValue (getField result "promise") = .ok tr)
    (h5 : truthy tr = true) (h6 : truthy (getField tr "result") = false)
    (h7 : getField tr "segments" = .arr xs) (h8 : xs ≠ []) :
    (tryNormalize result).2 = .ok (.str (joinTexts xs)) := by
  have hlen : jsGtZero (getField (JSValue.arr xs) "length") = true := by
    have hpos : (0 : ℚ) < (xs.length : ℚ) := by
      exact_mod_cast List.length_pos.mpr h8
    simp [getField, jsGtZero, hpos]
  unfold tryNormalize
  simp [h1, h2, h3, h4, h5, h6, h7, hlen]

theorem tryNormalize_promise_no_text (result tr : JSValue)
    (h1 : truthy result = true) (h2 : typeofIsObject result = true)
    (h3 : truthy (getField result "promise") = true)
    (h4 : awaitValue (getField result "promise") = .ok tr)
    (h5 : truthy (getField tr "result") = false)
    (h6 : (truthy tr && truthy (getField tr "segments")
        && jsGtZero (getField (getField tr "segments") "length")) = false) :
    (tryNormalize result).2 = .error "No transcription text in resolved result" := by
  unfold tryNormalize
  cases hseg : truthy (getField tr "segments") with
  | false => simp [h1, h2, h3, h4, h5, hseg]
  | true =>
    cases hlen : jsGtZero (getField (getField tr "segments") "length") with
    | false => simp [h1, h2, h3, h4, h5, hseg, hlen]
    | true =>
      cases htr : truthy tr with
      | false => simp [h1, h2, h3, h4, h5, htr]
      | true =>
        rw [htr, hseg, hlen] at h6
        simp at h6

theorem tryNormalize_direct_text (result : JSValue)
    (hB : (truthy result && typeofIsObject result
        && truthy (getField result "promise")) = false)
    (h1 : truthy result = true) (h2 : truthy (getField result "text") = true) :
    (tryNormalize result).2 = .ok (getField result "text") := by
  have hc1 : ¬((truthy result && typeofIsObject result
      && truthy (getField result "promise")) = true) := by simp [hB]
  have hc2 : (truthy result && truthy (getField result "text")) = true := by
    simp [h1, h2]
  unfold tryNormalize
  rw [if_neg hc1, if_pos hc2]

theorem tryNormalize_unexpected (result : JSValue)
    (hB : (truthy result && typeofIsObject result
        && truthy (getField result "promise")) = false)
    (hT : (truthy result && truthy (getField result "text")) = false) :
    (tryNormalize result).2
      = .error "Unexpected transcription result format" := by
  have hc1 : ¬((truthy result && typeofIsObject result
      && truthy (getField result "promise")) = true) := by simp [hB]
  have hc2 : ¬((truthy result && truthy (getField result "text")) = true) := by
    simp [hT]
  unfold tryNormalize
  rw [if_neg hc1, if_neg hc2]

/-! ## Claim theorems -/

/-- C1 counterexample.  The claim states that a result with a direct `.text`
field has that field used as-is, and that a promise-shaped result has the
`.result` of the awaited value used; the code conditions both on *truthiness*:
with the engine ready, `\x7btext: ""\x7d` yields the unexpected-format error
transcript rather than the empty transcript, and a promise resolving to
`\x7bresult: ""\x7d` yields the no-transcription-text error transcript
rather than the empty transcript. -/
theorem processAudio_falsy_text_not_used :
    (processAudio (.ok (.obj [("text", .str "")])) readyState).transcription
        = .str "Error processing audio: Unexpected transcription result format"
      ∧ (processAudio (.ok (.obj [("promise",
            .promise (.ok (.obj [("result", .str "")])))])) readyState).transcription
        = .str "Error processing audio: No transcription text in resolved result"
      ∧ JSValue.str "Error processing audio: Unexpected transcription result format"
          ≠ .str ""
      ∧ JSValue.str "Error processing audio: No transcription text in resolved result"
          ≠ .str "" := by
  refine ⟨rfl, rfl, ?_, ?_⟩
  · intro h
    exact absurd (JSValue.str.inj h) (by decide)
  · intro h
    exact absurd (JSValue.str.inj h) (by decide)

/-- C1 (amended): with the engine ready, the transcript `processAudio` sets
is: for a truthy `typeof`-object result with a truthy `promise` field
(this branch is probed before any `text` field), the `.result` of the
awaited value when that field is truthy, or else the `.text` fields of its
non-empty `segments` array joined in order with single spaces; otherwise a
result with a *truthy* direct `.text` field is used as-is; and any other
value yields exactly
`"Error processing audio: Unexpected transcription result format"`. -/
theorem processAudio_normalization (s : AppState) (result : JSValue)
    (hw : truthy s.whisper = true) :
    (∀ tr, truthy result = true → typeofIsObject result = true →
      truthy (getField result "promise") = true →
      awaitValue (getField result "promise") = .ok tr →
      truthy tr = true → truthy (getField tr "result") = true →
      (processAudio (.ok result) s).transcription = getField tr "result")
    ∧ (∀ tr xs, truthy result = true → typeofIsObject result = true →
      truthy (getField result "promise") = true →
      awaitValue (getField result "promise") = .ok tr →
      truthy tr = true → truthy (getField tr "result") = false →
      getField tr "segments" = .arr xs → xs ≠ [] →
      (processAudio (.ok result) s).transcription = .str (joinTexts xs))
    ∧ ((truthy result && typeofIsObject result
        && truthy (getField result "promise")) = false →
      truthy result = true → truthy (getField result "text") = true →
      (processAudio (.ok result) s).transcription = getField result "text")
    ∧ ((truthy result && typeofIsObject result
        && truthy (getField result "promise")) = false →
      (truthy result && truthy (getField result "text")) = false →
      (processAudio (.ok result) s).transcription
        = .str "Error processing audio: Unexpected transcription result format") := by
  refine ⟨?_, ?_, ?_, ?_⟩
  · intro tr h1 h2 h3 h4 h5 h6
    exact processAudio_transcription_of_norm s result _ hw
      (tryNormalize_promise_result result tr h1 h2 h3 h4 h5 h6)
  · intro tr xs h1 h2 h3 h4 h5 h6 h7 h8
    exact processAudio_transcription_of_norm s result _ hw
      (tryNormalize_promise_segments result tr xs h1 h2 h3 h4 h5 h6 h7 h8)
  · intro hB h1 h2
    exact processAudio_transcription_of_norm s result _ hw
      (tryNormalize_direct_text result hB h1 h2)
  · intro hB hT
    exact processAudio_transcription_of_norm_err s result _ hw
      (tryNormalize_unexpected result hB hT)

/-- C1 witness: the amended theorem applied at the P2 inputs of the spec —
a promise-wrapped `\x7bresult: "hello"\x7d` (also carrying a direct `text`
field, exercising the promise-first ordering), a segment list
`[\x7btext:"a"\x7d, \x7btext:"b"\x7d]`, a direct `\x7btext: "x"\x7d`, and
the empty object. -/
theorem processAudio_normalization_witness :
    truthy readyState.whisper = true
    ∧ (processAudio (.ok (.obj [("promise",
          .promise (.ok (.obj [("result", .str "hello")]))),
          ("text", .str "shadowed")])) readyState).transcription = .str "hello"
    ∧ (processAudio (.ok (.obj [("promise",
          .promise (.ok (.obj [("segments",
            .arr [.obj [("text", .str "a")], .obj [("text", .str "b")]])])))]))
          readyState).transcription = .str "a b"
    ∧ (processAudio (.ok (.obj [("text", .str "x")])) readyState).transcription
        = .str "x"
    ∧ (processAudio (.ok (.obj [])) readyState).transcription
        = .str "Error processing audio: Unexpected transcription result format" := by
  refine ⟨rfl, ?_, ?_, ?_, ?_⟩
  · exact (processAudio_normalization readyState
      (.obj [("promise", .promise (.ok (.obj [("result", .str "hello")]))),
        ("text", .str "shadowed")]) rfl).1
      (.obj [("result", .str "hello")]) rfl rfl rfl rfl rfl rfl
  · have h := (processAudio_normalization readyState
      (.obj [("promise", .promise (.ok (.obj [("segments",
        .arr [.obj [("text", .str "a")], .obj [("text", .str "b")]])])))])
      rfl).2.1
      (.obj [("segments", .arr [.obj [("text", .str "a")], .obj [("text", .str "b")]])])
      [.obj [("text", .str "a")], .obj [("text", .str "b")]]
      rfl rfl rfl rfl rfl rfl rfl (List.cons_ne_nil _ _)
    have hj : joinTexts [.obj [("text", .str "a")], .obj [("text", .str "b")]]
        = "a b" := by
      simp [joinTexts, getField, isNullish]
      decide
    exact h.trans (congrArg JSValue.str hj)
  · exact (processAudio_normalization readyState
      (.obj [("text", .str "x")]) rfl).2.2.1 rfl rfl rfl
  · exact (processAudio_normalization readyState (.obj []) rfl).2.2.2 rfl rfl

/-- C10: with the engine ready, in the promise-shaped branch the awaited
`.result` field of the awaited value is used only when truthy; with a falsy `.result` (for
instance the empty string) and no non-empty segments array, the transcript
becomes exactly
`"Error processing audio: No transcription text in resolved result"`. -/
theorem processAudio_falsy_result_falls_through (s : AppState)
    (result tr : JSValue) (hw : truthy s.whisper = true)
    (h1 : truthy result = true) (h2 : typeofIsObject result = true)
    (h3 : truthy (getField result "promise") = true)
    (h4 : awaitValue (getField result "promise") = .ok tr)
    (h5 : truthy (getField tr "result") = false)
    (h6 : (truthy tr && truthy (getField tr "segments")
        && jsGtZero (getField (getField tr "segments") "length")) = false) :
    (processAudio (.ok result) s).transcription
      = .str "Error processing audio: No transcription text in resolved result" := by
  exact processAudio_transcription_of_norm_err s result _ hw
    (tryNormalize_promise_no_text result tr h1 h2 h3 h4 h5 h6)

/-- C10 witness: a promise-wrapped result resolving to
`\x7bresult: ""\x7d`. -/
theorem processAudio_falsy_result_falls_through_witness :
    truthy readyState.whisper = true
    ∧ (processAudio (.ok (.obj [("promise",
          .promise (.ok (.obj [("result", .str "")])))])) readyState).transcription
        = .str "Error processing audio: No transcription text in resolved result" :=
  ⟨rfl, processAudio_falsy_result_falls_through readyState
    (.obj [("promise", .promise (.ok (.obj [("result", .str "")])))])
    (.obj [("result", .str "")]) rfl rfl rfl rfl rfl rfl rfl⟩

/-- C4: whenever the engine reference is falsy (initialization has not
completed successfully), `processAudio` performs no transcription call —
its outcome is independent of the transcribe oracle — and the final
transcript is exactly
`"Error processing audio: Whisper not initialized"`. -/
theorem processAudio_engine_not_ready (s : AppState)
    (t₁ t₂ : Except String JSValue) (hw : truthy s.whisper = false) :
    (processAudio t₁ s).transcription
        = .str "Error processing audio: Whisper not initialized"
      ∧ processAudio t₁ s = processAudio t₂ s := by
  constructor
  · rw [processAudio_not_ready_aux t₁ s hw]
    rfl
  · rw [processAudio_not_ready_aux t₁ s hw, processAudio_not_ready_aux t₂ s hw]

/-- C4 witness: invoked from the initial state, whose engine reference is
still `undefined`, with two different transcribe oracles. -/
theorem processAudio_engine_not_ready_witness :
    truthy initialState.whisper = false
    ∧ (processAudio (.ok (.obj [("text", .str "q")])) initialState).transcription
        = .str "Error processing audio: Whisper not initialized"
    ∧ processAudio (.ok (.obj [("text", .str "q")])) initialState
        = processAudio (.error "never called") initialState :=
  ⟨rfl,
    (processAudio_engine_not_ready initialState
      (.ok (.obj [("text", .str "q")])) (.error "never called") rfl).1,
    (processAudio_engine_not_ready initialState
      (.ok (.obj [("text", .str "q")])) (.error "never called") rfl).2⟩

/-- C3 counterexample.  The claim states that starting a new recording
resets the transcript to the empty string; `startRecording` only flips the
recording flag, starts the capture collaborator, and logs — it never calls
`setTranscription`, so a previous transcript survives. -/
theorem startRecording_keeps_transcript :
    (startRecording (.ok ())
        { initialState with transcription := .str "previous transcript" }).map
        AppState.transcription
      = .ok (.str "previous transcript")
    ∧ JSValue.str "previous transcript" ≠ .str "" := by
  refine ⟨rfl, ?_⟩
  intro h
  exact absurd (JSValue.str.inj h) (by decide)

/-- C3 (amended): a successful `deleteAudio` with an asset present resets
the transcript text to the empty string, while `startRecording` leaves the
transcript exactly as it was (whatever the capture collaborator does). -/
theorem transcript_reset_on_delete_only :
    (∀ (r : Except String Unit) (s s' : AppState),
      startRecording r s = .ok s' → s'.transcription = s.transcription)
    ∧ (∀ (s : AppState) (p : String), s.audioFile = some p →
      (deleteAudio (.ok ()) s).transcription = .str "") := by
  constructor
  · intro r s s' h
    cases r with
    | error m => exact absurd h (by simp [startRecording])
    | ok _ =>
      unfold startRecording at h
      dsimp only at h
      cases h
      rfl
  · intro s p h
    simp [deleteAudio, h]

/-- A concrete state holding an asset, a non-empty transcript and a nonzero
duration, as left by a completed recording, transcription and playback. -/
def assetState : AppState :=
  { initialState with
      audioFile := some "/storage/app/recording_1.wav"
      transcription := .str "old words"
      audioDuration := 3 }

/-- A concrete state with a non-empty transcript and no asset. -/
def transcriptState : AppState :=
  { initialState with transcription := .str "old words" }

/-- C3 witness: the amended theorem applied to `assetState` (delete part)
and to a concrete successful start on `transcriptState`. -/
theorem transcript_reset_on_delete_only_witness :
    assetState.audioFile = some "/storage/app/recording_1.wav"
    ∧ (deleteAudio (.ok ()) assetState).transcription = .str ""
    ∧ startRecording (.ok ()) transcriptState
        = .ok (addDebugLog "Started recording"
            { transcriptState with isRecording := true })
    ∧ (addDebugLog "Started recording"
        { transcriptState with isRecording := true }).transcription
        = transcriptState.transcription :=
  ⟨rfl,
    transcript_reset_on_delete_only.2 assetState
      "/storage/app/recording_1.wav" rfl,
    rfl,
    transcript_reset_on_delete_only.1 (.ok ()) transcriptState
      (addDebugLog "Started recording"
        { transcriptState with isRecording := true })
      rfl⟩

/-- C5: with an asset present and a failing file deletion, `deleteAudio`
leaves the asset reference, the transcript and the duration unchanged (no
partial mutation) and appends the failure entry to the debug log. -/
theorem deleteAudio_failure_no_mutation (s : AppState) (p m : String)
    (h : s.audioFile = some p) :
    (deleteAudio (.error m) s).audioFile = s.audioFile
    ∧ (deleteAudio (.error m) s).transcription = s.transcription
    ∧ (deleteAudio (.error m) s).audioDuration = s.audioDuration
    ∧ (deleteAudio (.error m) s).debugLogs
        = s.debugLogs ++ ["Error deleting audio file: " ++ m] := by
  simp [deleteAudio, h]

/-- C5 witness: `assetState` with a concrete unlink failure. -/
theorem deleteAudio_failure_no_mutation_witness :
    assetState.audioFile = some "/storage/app/recording_1.wav"
    ∧ (deleteAudio (.error "unlink failed") assetState).audioFile
        = assetState.audioFile
    ∧ (deleteAudio (.error "unlink failed") assetState).transcription
        = assetState.transcription
    ∧ (deleteAudio (.error "unlink failed") assetState).audioDuration
        = assetState.audioDuration
    ∧ (deleteAudio (.error "unlink failed") assetState).debugLogs
        = assetState.debugLogs ++ ["Error deleting audio file: " ++ "unlink failed"] := by
  have h := deleteAudio_failure_no_mutation assetState
    "/storage/app/recording_1.wav" "unlink failed" rfl
  exact ⟨rfl, h.1, h.2.1, h.2.2.1, h.2.2.2⟩

/-- C6: with an asset present and the file deletion succeeding,
`deleteAudio` clears the asset reference, sets the duration to exactly `0`
and the transcript to exactly the empty string. -/
theorem deleteAudio_success_resets (s : AppState) (p : String)
    (h : s.audioFile = some p) :
    (deleteAudio (.ok ()) s).audioFile = none
    ∧ (deleteAudio (.ok ()) s).audioDuration = 0
    ∧ (deleteAudio (.ok ()) s).transcription = .str "" := by
  simp [deleteAudio, h]

/-- C6 witness: `assetState`, whose duration is `3` and transcript is
non-empty, with a successful deletion. -/
theorem deleteAudio_success_resets_witness :
    assetState.audioFile = some "/storage/app/recording_1.wav"
    ∧ (deleteAudio (.ok ()) assetState).audioFile = none
    ∧ (deleteAudio (.ok ()) assetState).audioDuration = 0
    ∧ (deleteAudio (.ok ()) assetState).transcription = .str "" := by
  have h := deleteAudio_success_resets assetState
    "/storage/app/recording_1.wav" rfl
  exact ⟨rfl, h.1, h.2.1, h.2.2⟩

/-! ## Engine initialization helpers -/

/-- With a falsy engine, the transcript is the fail-fast error string. -/
theorem processAudio_not_ready_transcript (t : Except String JSValue)
    (s : AppState) (hw : truthy s.whisper = false) :
    (processAudio t s).transcription
      = .str "Error processing audio: Whisper not initialized" := by
  rw [processAudio_not_ready_aux t s hw]
  rfl

theorem initWhispersCore_whisper_of_err (env : InitWhisperEnv) (s : AppState)
    (m : String) (h : env.initRes = .error m) :
    (initWhispersCore env s).whisper = s.whisper := by
  unfold initWhispersCore
  rw [h]
  rfl

theorem initWhispersCore_whisper_of_ok (env : InitWhisperEnv) (s : AppState)
    (w : JSValue) (h : env.initRes = .ok w) :
    (initWhispersCore env s).whisper = w := by
  unfold initWhispersCore
  rw [h]
  dsimp only
  split <;> simp

theorem initWhispersCore_bad_log (env : InitWhisperEnv) (s : AppState)
    (w : JSValue) (hi : env.initRes = .ok w)
    (hbad : (truthy w && typeofIsFunction (getField w "transcribe")) = false) :
    (initWhispersCore env s).debugLogs
      = s.debugLogs ++ ["Failed to initialize Whisper: "
          ++ "Whisper not properly initialized"] := by
  unfold initWhispersCore
  rw [hi]
  dsimp only
  rw [if_neg (by simp [hbad])]
  simp

/-- When the model already exists, `initWhispers` is the engine-construction
tail applied after the three progress log entries. -/
theorem initWhispers_eq_core_of_exists (cfg : Config) (env : InitWhisperEnv)
    (s : AppState) (he : env.existsRes = .ok true) :
    initWhispers cfg env s
      = initWhispersCore env
          (addDebugLog ("Model path: " ++ (cfg.documentDirectoryPath ++ "/ggml-base.bin"))
            (addDebugLog ("Model exists: " ++ toString true)
              (addDebugLog "Initializing Whisper..." s))) := by
  unfold initWhispers
  rw [he]
  rfl

/-- When the model is absent and the copy succeeds, `initWhispers` is the
engine-construction tail applied after the copy log entry. -/
theorem initWhispers_eq_core_of_copied (cfg : Config) (env : InitWhisperEnv)
    (s : AppState) (he : env.existsRes = .ok false) (hc : env.copyRes = .ok ()) :
    initWhispers cfg env s
      = initWhispersCore env
          (addDebugLog "Model file copied"
            (addDebugLog ("Model path: " ++ (cfg.documentDirectoryPath ++ "/ggml-base.bin"))
              (addDebugLog ("Model exists: " ++ toString false)
                (addDebugLog "Initializing Whisper..." s)))) := by
  unfold initWhispers
  rw [he]
  dsimp only
  rw [hc]
  rfl

/-- The two reachability cases for the engine-construction tail, bundled. -/
theorem initWhispers_whisper_of_initRes (cfg : Config) (env : InitWhisperEnv)
    (s : AppState) (me : Bool) (w : JSValue) (he : env.existsRes = .ok me)
    (hcopy : me = true ∨ env.copyRes = .ok ()) (hi : env.initRes = .ok w) :
    (initWhispers cfg env s).whisper = w := by
  cases me with
  | true =>
    rw [initWhispers_eq_core_of_exists cfg env s he]
    exact initWhispersCore_whisper_of_ok env _ w hi
  | false =>
    rcases hcopy with hcopy | hcopy
    · exact absurd hcopy (by simp)
    · rw [initWhispers_eq_core_of_copied cfg env s he hcopy]
      exact initWhispersCore_whisper_of_ok env _ w hi

/-- C2 counterexample.  With the initializer resolving to a truthy object
whose `transcribe` is not a function, `initWhispers` logs the failure but —
since the global assignment precedes the capability check and the `catch`
does not reset it — leaves the engine reference holding that object, not
null; a later `processAudio` then passes the `if (!Whisper)` guard and
fails inside the transcribe call with a message from that call, not the
EngineNotReady string. -/
theorem initWhispers_bad_engine_retained :
    truthy (initWhispers cfg0 badInitEnv initialState).whisper = true
    ∧ (initWhispers cfg0 badInitEnv initialState).whisper = badEngine
    ∧ (initWhispers cfg0 badInitEnv initialState).debugLogs
        = ["Initializing Whisper...",
           "Model exists: " ++ toString true,
           "Model path: " ++ ("/data/Documents" ++ "/ggml-base.bin"),
           "Failed to initialize Whisper: " ++ "Whisper not properly initialized"]
    ∧ (processAudio (.error "Whisper.transcribe is not a function")
        (initWhispers cfg0 badInitEnv initialState)).transcription
        = .str "Error processing audio: Whisper.transcribe is not a function"
    ∧ JSValue.str "Error processing audio: Whisper.transcribe is not a function"
        ≠ .str "Error processing audio: Whisper not initialized" := by
  refine ⟨rfl, rfl, rfl, rfl, ?_⟩
  intro h
  exact absurd (JSValue.str.inj h) (by decide)

/-- C2 (amended): if Engine initialization fails because the existence
check, the model copy or the initializer itself throws, the Engine
reference is left unchanged (still `undefined`/null), and with a falsy
reference every later transcription attempt fails fast with the
EngineNotReady transcript; if the initializer resolves, the reference
always ends up holding the resolved value — so when that value is a truthy
object lacking a function-valued `transcribe`, initialization is logged as
failed yet the reference retains the object, and a later transcription
attempt is not fail-fast: it reaches the transcribe call and surfaces that
thrown message of that call as the transcript. -/
theorem initWhispers_failure_modes :
    (∀ cfg env (s : AppState) m, env.existsRes = .error m →
      (initWhispers cfg env s).whisper = s.whisper)
    ∧ (∀ cfg env (s : AppState) m, env.existsRes = .ok false →
      env.copyRes = .error m → (initWhispers cfg env s).whisper = s.whisper)
    ∧ (∀ cfg env (s : AppState) me m, env.existsRes = .ok me →
      (me = true ∨ env.copyRes = .ok ()) → env.initRes = .error m →
      (initWhispers cfg env s).whisper = s.whisper)
    ∧ (∀ cfg env (s : AppState) me w, env.existsRes = .ok me →
      (me = true ∨ env.copyRes = .ok ()) → env.initRes = .ok w →
      (initWhispers cfg env s).whisper = w)
    ∧ (∀ (t : Except String JSValue) (s : AppState), truthy s.whisper = false →
      (processAudio t s).transcription
        = .str "Error processing audio: Whisper not initialized")
    ∧ (∀ cfg env (s : AppState) me w, env.existsRes = .ok me →
      (me = true ∨ env.copyRes = .ok ()) → env.initRes = .ok w →
      truthy w = true → typeofIsFunction (getField w "transcribe") = false →
      ("Failed to initialize Whisper: " ++ "Whisper not properly initialized")
          ∈ (initWhispers cfg env s).debugLogs
      ∧ ∀ m, (processAudio (.error m) (initWhispers cfg env s)).transcription
          = .str ("Error processing audio: " ++ m)) := by
  refine ⟨?_, ?_, ?_, ?_, ?_, ?_⟩
  · intro cfg env s m h
    unfold initWhispers
    rw [h]
    rfl
  · intro cfg env s m he hc
    unfold initWhispers
    rw [he]
    dsimp only
    rw [hc]
    rfl
  · intro cfg env s me m he hcopy hi
    cases me with
    | true =>
      rw [initWhispers_eq_core_of_exists cfg env s he]
      rw [initWhispersCore_whisper_of_err env _ m hi]
      rfl
    | false =>
      rcases hcopy with hcopy | hcopy
      · exact absurd hcopy (by simp)
      · rw [initWhispers_eq_core_of_copied cfg env s he hcopy]
        rw [initWhispersCore_whisper_of_err env _ m hi]
        rfl
  · intro cfg env s me w he hcopy hi
    exact initWhispers_whisper_of_initRes cfg env s me w he hcopy hi
  · intro t s hw
    exact processAudio_not_ready_transcript t s hw
  · intro cfg env s me w he hcopy hi htr hfn
    have hbad : (truthy w && typeofIsFunction (getField w "transcribe")) = false := by
      simp [hfn]
    have hwhisper : (initWhispers cfg env s).whisper = w :=
      initWhispers_whisper_of_initRes cfg env s me w he hcopy hi
    constructor
    · cases me with
      | true =>
        rw [initWhispers_eq_core_of_exists cfg env s he,
          initWhispersCore_bad_log env _ w hi hbad]
        simp
      | false =>
        rcases hcopy with hcopy | hcopy
        · exact absurd hcopy (by simp)
        · rw [initWhispers_eq_core_of_copied cfg env s he hcopy,
            initWhispersCore_bad_log env _ w hi hbad]
          simp
    · intro m
      have hwt : truthy (initWhispers cfg env s).whisper = true := by
        rw [hwhisper, htr]
      exact (processAudio_of_call_error (initWhispers cfg env s) m hwt).1

/-- C2 witness: the amended theorem applied to `badInitEnv` — whose
initializer resolves to the truthy `badEngine` with a string-valued
`transcribe` — from the initial state, with a representative `TypeError`
message for the failed call. -/
theorem initWhispers_failure_modes_witness :
    badInitEnv.existsRes = .ok true
    ∧ badInitEnv.initRes = .ok badEngine
    ∧ truthy badEngine = true
    ∧ typeofIsFunction (getField badEngine "transcribe") = false
    ∧ ("Failed to initialize Whisper: " ++ "Whisper not properly initialized")
        ∈ (initWhispers cfg0 badInitEnv initialState).debugLogs
    ∧ (processAudio (.error "Whisper.transcribe is not a function")
        (initWhispers cfg0 badInitEnv initialState)).transcription
        = .str ("Error processing audio: "
            ++ "Whisper.transcribe is not a function") :=
  ⟨rfl, rfl, rfl, rfl,
    (initWhispers_failure_modes.2.2.2.2.2 cfg0 badInitEnv initialState true
      badEngine rfl (Or.inl rfl) rfl rfl rfl).1,
    (initWhispers_failure_modes.2.2.2.2.2 cfg0 badInitEnv initialState true
      badEngine rfl (Or.inl rfl) rfl rfl rfl).2
      "Whisper.transcribe is not a function"⟩

/-! ## Log and interleaving claims -/

theorem runEvents_nil (cfg : Config) (s : AppState) :
    runEvents cfg s [] = s := rfl

theorem runEvents_cons (cfg : Config) (s : AppState) (e : Ev) (es : List Ev) :
    runEvents cfg s (e :: es) = runEvents cfg (step cfg s e) es := rfl

/-- `true` for the events a user button press triggers (as opposed to
collaborator callbacks and resumptions). -/
def isUserOp : Ev → Bool
  | .recordToggle => true
  | .playPress => true
  | .stopAudioPress => true
  | .deletePress _ => true
  | _ => false

/-- A reachable serial scenario: record, stop, the stop-and-save
continuation resumes (engine never initialized, so the transcription error
path completes synchronously within it), then three play/stop rounds.
Every press is made from a state where its button is shown, and each
operation completes before the next press. -/
def silentOpsTrace : List Ev :=
  [.recordToggle,
   .recordToggle, .stopSaveDone "raw.wav" 2 (.ok ()) (.ok 42),
   .playPress, .soundLoadDone none 5, .stopAudioPress,
   .playPress, .soundLoadDone none 5, .stopAudioPress,
   .playPress, .soundLoadDone none 5, .stopAudioPress]

/-- C7 counterexample.  `stopAudio` appends no log entry (and neither does
a `playAudio` press before its load callback), so an operation can append
zero entries, and a sequence of 8 user-triggered operations can yield a log
of only 6 entries — refuting both the at-least-one-entry-per-operation part
and the length-at-least-N part of the claim.  The append-only/ordered part
survives and is proved as the amended theorem. -/
theorem stopAudio_appends_no_entry :
    silentOpsTrace.countP (fun e => isUserOp e) = 8
    ∧ (runEvents cfg0 initialState silentOpsTrace).debugLogs.length = 6
    ∧ (step cfg0 (runEvents cfg0 initialState silentOpsTrace)
        .stopAudioPress).debugLogs
      = (runEvents cfg0 initialState silentOpsTrace).debugLogs
    ∧ (6 : Nat) < 8 :=
  ⟨by decide, by decide, by decide, by decide⟩

/-- C7 (amended): the debug log is append-only and ordered — every
event-loop turn leaves the existing log entries in place, in order, and
only appends after them — but an operation may append no entry
(`stopAudio` never logs, and guarded no-op presses log nothing), so N
operations do not guarantee N new entries. -/
theorem debugLog_append_only (cfg : Config) (s : AppState) (evs : List Ev) :
    ∃ t, (runEvents cfg s evs).debugLogs = s.debugLogs ++ t := by
  induction evs generalizing s with
  | nil => exact ⟨[], by simp [runEvents_nil]⟩
  | cons e es ih =>
    obtain ⟨t1, h1⟩ := step_logsExt cfg s e
    obtain ⟨t2, h2⟩ := ih (step cfg s e)
    refine ⟨t1 ++ t2, ?_⟩
    rw [runEvents_cons, h2, h1]
    simp

/-- A trace reaching the race the spec documents: the engine initializes,
a recording is made and stopped, and while the stop-and-save continuation
is still parked at `await AudioRecord.stop()` the user presses the toggle
again — the button shows `Start Recording` because `isRecording` is
already false and `isProcessing` is not yet true; when the parked
continuation then resumes it raises the processing flag with the recording
flag up. -/
def raceTrace : List Ev :=
  [.whisperInit goodInitEnv,
   .recordToggle,
   .recordToggle,
   .recordToggle,
   .stopSaveDone "raw.wav" 2 (.ok ()) (.ok 42)]

/-- C8 counterexample: after `raceTrace` — an interleaving of user presses
and asynchronous resumptions reachable from the initial state — the
recording flag and the processing flag are both true (and the transcription
of the earlier recording is still in flight). -/
theorem both_flags_reachable :
    (runEvents cfg0 initialState raceTrace).isRecording = true
    ∧ (runEvents cfg0 initialState raceTrace).isProcessing = true
    ∧ (runEvents cfg0 initialState raceTrace).pendingTranscriptions = 1 :=
  ⟨rfl, rfl, rfl⟩

/-- Along race-free traces the flag invariant is inductive. -/
theorem runEvents_flags_inv (cfg : Config) (evs : List Ev) :
    ∀ s : AppState, flagsInv s → raceFreeTrace cfg s evs = true →
      flagsInv (runEvents cfg s evs) := by
  induction evs with
  | nil =>
    intro s h0 _
    exact h0
  | cons e es ih =>
    intro s h0 h
    unfold raceFreeTrace at h
    rw [Bool.and_eq_true] at h
    rw [runEvents_cons]
    exact ih (step cfg s e) (step_flags_inv cfg s e h0 (by simpa using h.1)) h.2

/-- C8 (amended): along any trace in which no new recording is started
while a stop-and-save continuation or a transcription is still in flight
(the unserialised race the spec documents in its design notes), starting
from a state satisfying the flag invariant, the recording flag and the
processing flag are never both true. -/
theorem no_both_flags_when_race_free (cfg : Config) (s : AppState)
    (evs : List Ev) (h0 : flagsInv s)
    (h : raceFreeTrace cfg s evs = true) :
    ((runEvents cfg s evs).isRecording
      && (runEvents cfg s evs).isProcessing) = false :=
  (runEvents_flags_inv cfg evs s h0 h).1

/-- A race-free trace: the same scenario as `raceTrace` but the new
recording starts only after the stop-and-save resumed and the
transcription resolved. -/
def raceFreeTrace0 : List Ev :=
  [.whisperInit goodInitEnv,
   .recordToggle,
   .recordToggle,
   .stopSaveDone "raw.wav" 2 (.ok ()) (.ok 42),
   .transcribeDone (.ok (.obj [("text", .str "hello world")])),
   .recordToggle]

/-- C8 witness: the amended theorem applied to `raceFreeTrace0` from the
initial state. -/
theorem no_both_flags_when_race_free_witness :
    flagsInv initialState
    ∧ raceFreeTrace cfg0 initialState raceFreeTrace0 = true
    ∧ ((runEvents cfg0 initialState raceFreeTrace0).isRecording
        && (runEvents cfg0 initialState raceFreeTrace0).isProcessing) = false :=
  ⟨⟨rfl, fun _ => rfl⟩, rfl,
    no_both_flags_when_race_free cfg0 initialState raceFreeTrace0
      ⟨rfl, fun _ => rfl⟩ rfl⟩

/-- C9 counterexample.  `AudioRecord.start()` in `startRecording` is not
wrapped in any `try`: a collaborator failure there is re-thrown upward out
of the handler (and no log entry records it), refuting the claim that every
collaborator failure is caught at the operation boundary. -/
theorem startRecording_propagates_failure :
    startRecording (.error "AudioRecord start failed") initialState
      = .error "AudioRecord start failed" := rfl

/-- C9 (amended): failures arising inside the `try` blocks — the file
move/stat of stop-and-save, the whole transcription path, and deletion —
and the playback callbacks are caught at the operation boundary and
converted to a log entry (for transcription, also an error transcript),
and those operations never re-throw; but a capture-collaborator failure in
`startRecording` (`AudioRecord.start()`) or in `stopRecording` before its
`try` block (`await AudioRecord.stop()`) propagates out of the handler
uncaught. -/
theorem failures_caught_except_capture :
    (∀ (m : String) (s : AppState), startRecording (.error m) s = .error m)
    ∧ (∀ cfg (m : String) (now : Nat) mv st tr (s : AppState),
      stopRecording cfg (.error m) now mv st tr s = .error m)
    ∧ (∀ cfg (audio : String) (now : Nat) mv st tr (s : AppState),
      ∃ s' t, stopRecording cfg (.ok audio) now mv st tr s = .ok s'
        ∧ s'.debugLogs = s.debugLogs ++ t)
    ∧ (∀ (m : String) (s : AppState), truthy s.whisper = true →
      (processAudio (.error m) s).transcription
          = .str ("Error processing audio: " ++ m)
      ∧ ("Error processing audio: " ++ m)
          ∈ (processAudio (.error m) s).debugLogs) := by
  refine ⟨?_, ?_, ?_, ?_⟩
  · intro m s
    rfl
  · intro cfg m now mv st tr s
    rfl
  · intro cfg audio now mv st tr s
    unfold stopRecording
    dsimp only
    obtain ⟨t1, h1⟩ := stopSaveCore_logs cfg now mv st
      (addDebugLog "Stopped recording" { s with isRecording := false })
    split
    next hsaved =>
      obtain ⟨t2, h2⟩ := processAudio_logsExt tr
        (stopSaveCore cfg now mv st
          (addDebugLog "Stopped recording" { s with isRecording := false })).1
      refine ⟨_, ("Stopped recording" :: t1) ++ t2, rfl, ?_⟩
      rw [h2, h1]
      simp
    next hsaved =>
      refine ⟨_, "Stopped recording" :: t1, rfl, ?_⟩
      rw [h1]
      simp
  · intro m s hw
    exact processAudio_of_call_error s m hw

/-- C9 witness: the amended theorem applied to a failing capture start, a
concrete successful stop-and-save with a failing move, and a failing
transcribe call on a ready engine. -/
theorem failures_caught_except_capture_witness :
    startRecording (.error "mic busy") initialState = .error "mic busy"
    ∧ (∃ s' t, stopRecording cfg0 (.ok "raw.wav") 1 (.error "move failed")
        (.ok 42) (.ok (.obj [("text", .str "hi")])) initialState = .ok s'
        ∧ s'.debugLogs = initialState.debugLogs ++ t)
    ∧ truthy readyState.whisper = true
    ∧ (processAudio (.error "decode failed") readyState).transcription
        = .str ("Error processing audio: " ++ "decode failed") :=
  ⟨failures_caught_except_capture.1 "mic busy" initialState,
    failures_caught_except_capture.2.2.1 cfg0 "raw.wav" 1 (.error "move failed")
      (.ok 42) (.ok (.obj [("text", .str "hi")])) initialState,
    rfl,
    (failures_caught_except_capture.2.2.2 "decode failed" readyState rfl).1⟩

end VoiceToText
